import Mathlib

/-
  Verification development for the reviewed deno-slack-sdk material.

  The repository material consists of:
  * documentation of the `ViewsRouter` constraint-based event router
    (view-submission / view-closed handler registration and dispatch);
  * two autogenerated platform function declarations
    (`create_usergroup` and `create_channel` in
    src/schema/slack/functions/create_usergroup.ts).

  The router's implementation source is not part of the reviewed files
  (only its documentation and API reference are), so the router is
  modelled from the specification's own description of its data model
  and dispatch algorithm.  The function declarations are embedded
  directly from the TypeScript source.
-/

set_option autoImplicit false

namespace DenoSlackSDK

/-! ### Substring matching

Helper functions used by the pattern-constraint semantics: a pattern
matches an identifier when it occurs anywhere in it, with no implicit
full-string anchoring. -/

/-- Tests whether the first character list occurs at the very start of the
second one. -/
def beginsWith : List Char → List Char → Bool
  | [], _ => true
  | _ :: _, [] => false
  | p :: ps, s :: ss => p == s && beginsWith ps ss

/-- Tests whether the first character list occurs contiguously anywhere
inside the second one. -/
def occursIn (p : List Char) : List Char → Bool
  | [] => beginsWith p []
  | c :: rest => beginsWith p (c :: rest) || occursIn p rest

/-! ### Constraint, Event, Registration, Outcome

Modelled from the spec: the `ViewsRouter` implementation of the SDK is
absent from the reviewed sources (only its documentation is present), so
the data model follows spec section 3 and the API reference in the docs:
a Constraint is an exact string, a set of strings, or a pattern; a
Registration pairs a Constraint with a Handler; an Event carries an
identifier string (the view `callback_id`) plus opaque payload fields. -/

/-- Modelled from the spec: a matching rule used to select a handler for
an incoming identifier.  One of: an exact string (case-sensitive
equality), a set of strings (any member may match), or a pattern that
matches anywhere in the identifier.  The concrete patterns appearing in
the documentation are literal patterns, so a pattern is modelled by the
literal character sequence it matches. -/
inductive Constraint where
  | exact (s : String)
  | anyOf (ss : List String)
  | pattern (lit : String)

/-- Modelled from the spec: the constraint test applied to an incoming
identifier during dispatch.  Exact strings use case-sensitive string
equality, string sets use membership, and patterns match anywhere in the
identifier with no implicit full-string anchoring. -/
def constraintTest : Constraint → String → Bool
  | .exact s, ident => ident == s
  | .anyOf ss, ident => ss.contains ident
  | .pattern lit, ident => occursIn lit.data ident.data

/-- Modelled from the spec: an incoming event, carrying at minimum an
identifier string (the `callback_id` assigned to the view when it was
created) and arbitrary category-specific payload fields passed through
unmodified to the matched handler. -/
structure Event where
  callbackId : String
  payload : List (String × String)

/-- Modelled from the spec: the context a matched handler is invoked
with, carrying the event payload and the short-lived interaction token
usable for follow-up calls.  The outbound-call capability handle is
owned by the external platform and is outside the model. -/
structure HandlerContext where
  event : Event
  token : String

/-- Modelled from the spec: a Registration pairs a Constraint with a
Handler.  A handler may produce a result value of type `ρ` or fail with
an error of type `ε`; failures are represented with `Except`. -/
structure Registration (ε ρ : Type) where
  constraint : Constraint
  handler : HandlerContext → Except ε ρ

/-- Modelled from the spec: the outcome of one dispatch.  Either no
registration matched (a defined non-error terminal state), or the single
selected handler ran to completion with a value, or that handler failed
and its failure is propagated unchanged. -/
inductive Outcome (ε ρ : Type) where
  | noMatch
  | handled (value : ρ)
  | failed (err : ε)

/-! ### Dispatch over a registration list -/

/-- Modelled from the spec: the index of the first registration in the
list (scanned in registration order) whose constraint test succeeds on
the identifier. -/
def selectIdx {ε ρ : Type} (ident : String) : List (Registration ε ρ) → Option Nat
  | [] => none
  | r :: rs =>
    if constraintTest r.constraint ident then some 0
    else (selectIdx ident rs).map (· + 1)

/-- Modelled from the spec: the first registration in the list (scanned
in registration order) whose constraint test succeeds on the
identifier. -/
def findFirst {ε ρ : Type} (ident : String) : List (Registration ε ρ) → Option (Registration ε ρ)
  | [] => none
  | r :: rs =>
    if constraintTest r.constraint ident then some r else findFirst ident rs

/-- Modelled from the spec: invoking one registration's handler with the
event and context; a result value yields `handled`, a handler failure is
propagated unchanged as `failed`. -/
def handlerRun {ε ρ : Type} (r : Registration ε ρ) (ev : Event) (token : String) : Outcome ε ρ :=
  match r.handler ⟨ev, token⟩ with
  | .ok v => .handled v
  | .error e => .failed e

/-- Modelled from the spec: dispatch over a registration list.  Scan the
list in registration order, select the first registration whose
constraint test succeeds, and invoke (only) its handler; if none
matches, produce the defined no-match outcome and invoke no handler. -/
def dispatchList {ε ρ : Type} (regs : List (Registration ε ρ)) (ev : Event) (token : String) :
    Outcome ε ρ :=
  match findFirst ev.callbackId regs with
  | none => .noMatch
  | some r => handlerRun r ev token

/-! ### The router -/

/-- Modelled from the spec: the two event categories routed by a
`ViewsRouter`: view-submission events and view-closed events. -/
inductive Category where
  | submission
  | closed

/-- Modelled from the spec: a `ViewsRouter` is created bound to a single
owning function declaration and accumulates an ordered list of
registrations per event category. -/
structure ViewsRouter (ε ρ : Type) where
  functionCallbackId : String
  submissionHandlers : List (Registration ε ρ)
  closedHandlers : List (Registration ε ρ)

/-- Modelled from the spec: `addSubmissionHandler` appends one new
Registration at the end of the submission category's ordered list and
returns the (updated) router to permit further chained registrations. -/
def ViewsRouter.addSubmissionHandler {ε ρ : Type} (router : ViewsRouter ε ρ)
    (c : Constraint) (h : HandlerContext → Except ε ρ) : ViewsRouter ε ρ :=
  { router with submissionHandlers := router.submissionHandlers ++ [⟨c, h⟩] }

/-- Modelled from the spec: `addClosedHandler` appends one new
Registration at the end of the closed category's ordered list and
returns the (updated) router to permit further chained registrations. -/
def ViewsRouter.addClosedHandler {ε ρ : Type} (router : ViewsRouter ε ρ)
    (c : Constraint) (h : HandlerContext → Except ε ρ) : ViewsRouter ε ρ :=
  { router with closedHandlers := router.closedHandlers ++ [⟨c, h⟩] }

/-- Modelled from the spec: the ordered registration list the router
keeps for a given event category. -/
def ViewsRouter.regsFor {ε ρ : Type} (router : ViewsRouter ε ρ) : Category → List (Registration ε ρ)
  | .submission => router.submissionHandlers
  | .closed => router.closedHandlers

/-- Modelled from the spec: the category-tagged registration operation
`register(category, constraint, handler)`. -/
def ViewsRouter.register {ε ρ : Type} (router : ViewsRouter ε ρ) (cat : Category)
    (c : Constraint) (h : HandlerContext → Except ε ρ) : ViewsRouter ε ρ :=
  match cat with
  | .submission => router.addSubmissionHandler c h
  | .closed => router.addClosedHandler c h

/-- Modelled from the spec: `dispatch(category, event)` in explicit
state-passing style.  It scans the category's registration list, invokes
at most the first matching handler, and returns the outcome together
with the router state after the dispatch. -/
def ViewsRouter.dispatch {ε ρ : Type} (router : ViewsRouter ε ρ) (cat : Category)
    (ev : Event) (token : String) : Outcome ε ρ × ViewsRouter ε ρ :=
  (dispatchList (router.regsFor cat) ev token, router)

/-! ### Function declarations

Embedded from src/schema/slack/functions/create_usergroup.ts.  A
declaration carries a stable `callback_id`, a title and description, and
input/output parameter schemas: a `required` name list together with a
`properties` association of parameter names to their type and
description. -/

/-- One declared parameter: its schema type and its description,
embedded from the TypeScript property objects. -/
structure ParameterDefinition where
  type : String
  description : String
deriving DecidableEq

/-- One parameter schema of a function declaration: the `required` name
array and the `properties` object, embedded as an association list from
parameter names to their definitions. -/
structure ParameterSetDefinition where
  required : List String
  properties : List (String × ParameterDefinition)
deriving DecidableEq

/-- A function declaration as passed to `DefineFunction`, embedded from
the TypeScript source. -/
structure FunctionDefinitionArgs where
  callback_id : String
  source_file : String
  title : String
  description : String
  input_parameters : ParameterSetDefinition
  output_parameters : ParameterSetDefinition
deriving DecidableEq

namespace SchemaTypes

/-- Modelled from the spec: the primitive string schema type referenced
as `SchemaTypes.string`; its defining module (src/schema/schema_types.ts)
is absent from the reviewed sources, so it is represented by its
canonical type name. -/
def string : String := "string"

/-- Modelled from the spec: the primitive boolean schema type referenced
as `SchemaTypes.boolean`; its defining module (src/schema/schema_types.ts)
is absent from the reviewed sources, so it is represented by its
canonical type name. -/
def boolean : String := "boolean"

end SchemaTypes

namespace SlackTypes

/-- Modelled from the spec: the Slack usergroup-id schema type referenced
as `SlackTypes.usergroup_id`; its defining module
(src/schema/slack/schema_types.ts) is absent from the reviewed sources,
so it is represented by its canonical type name. -/
def usergroup_id : String := "slack#/types/usergroup_id"

/-- Modelled from the spec: the Slack channel-id schema type referenced
as `SlackTypes.channel_id`; its defining module
(src/schema/slack/schema_types.ts) is absent from the reviewed sources,
so it is represented by its canonical type name. -/
def channel_id : String := "slack#/types/channel_id"

end SlackTypes

/-- The `create_usergroup` function declaration, embedded from
src/schema/slack/functions/create_usergroup.ts. -/
def create_usergroup : FunctionDefinitionArgs :=
  { callback_id := "slack#/functions/create_usergroup"
    source_file := ""
    title := "Create a user group"
    description := "Create a Slack user group"
    input_parameters :=
      { required := ["usergroup_handle", "usergroup_name"]
        properties :=
          [("usergroup_handle",
            { type := SchemaTypes.string, description := "Ex: accounts-team" }),
           ("usergroup_name",
            { type := SchemaTypes.string, description := "Ex. Accounts Team" })] }
    output_parameters :=
      { required := ["usergroup_id"]
        properties :=
          [("usergroup_id",
            { type := SlackTypes.usergroup_id, description := "User group" })] } }

/-- The `create_channel` function declaration, embedded from
src/schema/slack/functions/create_usergroup.ts. -/
def create_channel : FunctionDefinitionArgs :=
  { callback_id := "slack#/functions/create_channel"
    source_file := ""
    title := "Create a channel"
    description := "Create a Slack channel"
    input_parameters :=
      { required := ["channel_name"]
        properties :=
          [("channel_name",
            { type := SchemaTypes.string, description := "Enter a channel name" }),
           ("is_private",
            { type := SchemaTypes.boolean, description := "Make this channel private" })] }
    output_parameters :=
      { required := ["channel_id"]
        properties :=
          [("channel_id",
            { type := SlackTypes.channel_id, description := "Channel name" })] } }

/-- The declared parameter names of a parameter schema, in declaration
order. -/
def declaredNames (ps : ParameterSetDefinition) : List String :=
  ps.properties.map Prod.fst

/-! ### Sample data for concrete witnesses -/

/-- A sample handler producing a fixed result. -/
def sampleHandler : HandlerContext → Except String Nat :=
  fun _ => .ok 1

/-- A sample registration whose handler fails with the error "boom". -/
def sampleFailReg : Registration String Nat :=
  ⟨.exact "a", fun _ => .error "boom"⟩

/-- A sample pair of registrations whose constraints both match the
identifier "a"; the first uses an exact-string constraint, the second a
set-of-strings constraint. -/
def sampleRegsA : List (Registration String Nat) :=
  [⟨.exact "a", fun _ => .ok 1⟩, ⟨.anyOf ["a", "b"], fun _ => .ok 2⟩]

/-- A sample one-registration list whose constraint matches only "a". -/
def sampleRegsB : List (Registration String Nat) :=
  [⟨.exact "a", fun _ => .ok 0⟩]

/-- A sample registration list whose first matching handler fails while a
later registration with the same constraint would succeed. -/
def sampleRegsC : List (Registration String Nat) :=
  [sampleFailReg, ⟨.exact "a", fun _ => .ok 5⟩]

/-- A sample event carrying the identifier "a". -/
def sampleEvent : Event :=
  ⟨"a", []⟩

/-- A sample router with empty registration lists. -/
def sampleRouter : ViewsRouter String Nat :=
  ⟨"diary", [], []⟩

/-! ### Helper lemmas -/

theorem beginsWith_iff (p s : List Char) : beginsWith p s = true ↔ ∃ t, s = p ++ t := by
  induction p generalizing s with
  | nil => simp [beginsWith]
  | cons a as ih =>
    cases s with
    | nil => simp [beginsWith]
    | cons b bs =>
      simp only [beginsWith, Bool.and_eq_true, beq_iff_eq, ih, List.cons_append]
      constructor
      · rintro ⟨rfl, t, rfl⟩; exact ⟨t, rfl⟩
      · rintro ⟨t, h⟩
        injection h with h1 h2
        exact ⟨h1.symm, t, h2⟩

theorem occursIn_iff (p s : List Char) : occursIn p s = true ↔ ∃ t u, s = t ++ p ++ u := by
  induction s with
  | nil =>
    simp only [occursIn, beginsWith_iff]
    constructor
    · rintro ⟨t, h⟩
      rcases List.append_eq_nil.mp h.symm with ⟨rfl, rfl⟩
      exact ⟨[], [], rfl⟩
    · rintro ⟨t, u, h⟩
      rcases List.append_eq_nil.mp h.symm with ⟨h1, rfl⟩
      rcases List.append_eq_nil.mp h1 with ⟨rfl, rfl⟩
      exact ⟨[], rfl⟩
  | cons c rest ih =>
    simp only [occursIn, Bool.or_eq_true, beginsWith_iff, ih]
    constructor
    · rintro (⟨t, h⟩ | ⟨t, u, rfl⟩)
      · exact ⟨[], t, by simpa using h⟩
      · exact ⟨c :: t, u, rfl⟩
    · rintro ⟨t, u, h⟩
      cases t with
      | nil => exact Or.inl ⟨u, by simpa using h⟩
      | cons c2 t2 =>
        injection h with h1 h2
        exact Or.inr ⟨t2, u, h2⟩

theorem selectIdx_le {ε ρ : Type} (ident : String) (regs : List (Registration ε ρ))
    (i : Nat) (hi : i < regs.length)
    (hm : constraintTest (regs.get ⟨i, hi⟩).constraint ident = true) :
    ∃ j, selectIdx ident regs = some j ∧ j ≤ i := by
  induction regs generalizing i with
  | nil => exact absurd hi (Nat.not_lt_zero i)
  | cons r rs ih =>
    by_cases h : constraintTest r.constraint ident = true
    · exact ⟨0, by simp [selectIdx, h], Nat.zero_le i⟩
    · cases i with
      | zero => exact absurd hm h
      | succ i2 =>
        have hi2 : i2 < rs.length := Nat.lt_of_succ_lt_succ hi
        rcases ih i2 hi2 hm with ⟨j, hj, hle⟩
        refine ⟨j + 1, ?_, Nat.succ_le_succ hle⟩
        simp [selectIdx, h, hj]

theorem findFirst_eq {ε ρ : Type} (ident : String) (regs : List (Registration ε ρ)) :
    findFirst ident regs = (selectIdx ident regs).bind (regs[·]?) := by
  induction regs with
  | nil => simp [findFirst, selectIdx]
  | cons r rs ih =>
    by_cases h : constraintTest r.constraint ident = true
    · simp [findFirst, selectIdx, h]
    · simp [findFirst, selectIdx, h, ih]
      cases selectIdx ident rs <;> simp

theorem findFirst_none {ε ρ : Type} (ident : String) (regs : List (Registration ε ρ))
    (h : ∀ r ∈ regs, constraintTest r.constraint ident = false) :
    findFirst ident regs = none := by
  induction regs with
  | nil => rfl
  | cons r rs ih =>
    have hr := h r (List.mem_cons_self r rs)
    simp only [findFirst, hr, Bool.false_eq_true, if_false]
    exact ih fun r2 hr2 => h r2 (List.mem_cons_of_mem r hr2)

/-! ### Claim theorems -/

/-- C1: for every incoming event, dispatch invokes at most one registered
handler: whenever two registrations at positions `i1 < i2` in the ordered
registration list both have constraints matching the event's identifier,
the selected registration sits at some position `j ≤ i1`, the dispatch
outcome is exactly one run of that single registration's handler, and the
later registration at `i2` is never the selected one — first match wins,
with no fallback to later matches and no multi-dispatch. -/
theorem dispatch_first_match_wins {ε ρ : Type} (regs : List (Registration ε ρ)) (ident : String)
    (i1 i2 : Nat) (h12 : i1 < i2) (h2 : i2 < regs.length)
    (hm1 : constraintTest (regs.get ⟨i1, Nat.lt_trans h12 h2⟩).constraint ident = true)
    (_hm2 : constraintTest (regs.get ⟨i2, h2⟩).constraint ident = true) :
    (∃ j r, selectIdx ident regs = some j ∧ j ≤ i1 ∧ regs[j]? = some r ∧
      ∀ (ev : Event) (token : String), ev.callbackId = ident →
        dispatchList regs ev token = handlerRun r ev token) ∧
    selectIdx ident regs ≠ some i2 := by
  rcases selectIdx_le ident regs i1 (Nat.lt_trans h12 h2) hm1 with ⟨j, hj, hle⟩
  have hjlt : j < regs.length := Nat.lt_of_le_of_lt hle (Nat.lt_trans h12 h2)
  refine ⟨⟨j, regs.get ⟨j, hjlt⟩, hj, hle, ?_, ?_⟩, ?_⟩
  · simp [List.getElem?_eq_getElem hjlt]
  · intro ev token hev
    simp only [dispatchList, hev, findFirst_eq, hj, Option.bind,
      List.getElem?_eq_getElem hjlt, List.get_eq_getElem]
  · intro hcontra
    rw [hj] at hcontra
    have hji2 : j = i2 := Option.some.inj hcontra
    omega

/-- C1 witness: in a concrete two-registration list whose constraints
both match the identifier "a", the first registration is selected and the
second is not. -/
theorem dispatch_first_match_wins_witness :
    (∃ j r, selectIdx "a" sampleRegsA = some j ∧ j ≤ 0 ∧ sampleRegsA[j]? = some r ∧
      ∀ (ev : Event) (token : String), ev.callbackId = "a" →
        dispatchList sampleRegsA ev token = handlerRun r ev token) ∧
    selectIdx "a" sampleRegsA ≠ some 1 :=
  dispatch_first_match_wins sampleRegsA "a" 0 1 (by decide) (by decide) (by decide) (by decide)

/-- C2: for every event whose identifier matches no registered constraint,
dispatch selects no registration, invokes no handler, and returns the
defined no-match outcome, which is distinct from every failure outcome. -/
theorem dispatch_no_match_outcome {ε ρ : Type} (regs : List (Registration ε ρ))
    (ev : Event) (token : String)
    (h : ∀ r ∈ regs, constraintTest r.constraint ev.callbackId = false) :
    findFirst ev.callbackId regs = none ∧
    dispatchList regs ev token = Outcome.noMatch ∧
    (∀ e : ε, (Outcome.noMatch : Outcome ε ρ) ≠ Outcome.failed e) ∧
    (∀ v : ρ, (Outcome.noMatch : Outcome ε ρ) ≠ Outcome.handled v) := by
  have hnone := findFirst_none ev.callbackId regs h
  refine ⟨hnone, ?_, ?_, ?_⟩
  · simp [dispatchList, hnone]
  · intro e hcontra
    cases hcontra
  · intro v hcontra
    cases hcontra

/-- C2 witness: a concrete one-registration list whose constraint does
not match the identifier "zzz" yields the no-match outcome. -/
theorem dispatch_no_match_outcome_witness :
    findFirst "zzz" sampleRegsB = none ∧
    dispatchList sampleRegsB ⟨"zzz", []⟩ "tok" = Outcome.noMatch ∧
    (∀ e : String, (Outcome.noMatch : Outcome String Nat) ≠ Outcome.failed e) ∧
    (∀ v : Nat, (Outcome.noMatch : Outcome String Nat) ≠ Outcome.handled v) :=
  dispatch_no_match_outcome sampleRegsB ⟨"zzz", []⟩ "tok" (by decide)

/-- C3: an exact-string constraint matches an identifier exactly when the
identifier is character-for-character equal to it (case-sensitive); in
particular the constraint "view_identifier_12" matches the identifier
"view_identifier_12" and no other value. -/
theorem exact_constraint_spec :
    (∀ s i : String, constraintTest (.exact s) i = true ↔ i = s) ∧
    constraintTest (.exact "view_identifier_12") "view_identifier_12" = true ∧
    (∀ i : String, i ≠ "view_identifier_12" →
      constraintTest (.exact "view_identifier_12") i = false) := by
  refine ⟨fun s i => by simp [constraintTest], by decide, fun i hne => ?_⟩
  simp [constraintTest, hne]

/-- C3 witness: the exact constraint "view_identifier_12" rejects the
differently-cased identifier "View_identifier_12". -/
theorem exact_constraint_spec_witness :
    constraintTest (.exact "view_identifier_12") "View_identifier_12" = false :=
  exact_constraint_spec.2.2 "View_identifier_12" (by decide)

/-- C4: a set-of-strings constraint matches an identifier exactly when
the identifier equals some member of the set; in particular the set
constraint ["a","b"] matches "a" and "b" and does not match "c". -/
theorem anyOf_constraint_spec :
    (∀ (ss : List String) (i : String), constraintTest (.anyOf ss) i = true ↔ i ∈ ss) ∧
    constraintTest (.anyOf ["a", "b"]) "a" = true ∧
    constraintTest (.anyOf ["a", "b"]) "b" = true ∧
    constraintTest (.anyOf ["a", "b"]) "c" = false := by
  refine ⟨fun ss i => ?_, by decide, by decide, by decide⟩
  simp [constraintTest]

/-- C4 witness: the set constraint ["x","y"] accepts the member "y". -/
theorem anyOf_constraint_spec_witness :
    constraintTest (.anyOf ["x", "y"]) "y" = true :=
  (anyOf_constraint_spec.1 ["x", "y"] "y").mpr (by decide)

/-- C5: a pattern constraint matches an identifier exactly when the
pattern occurs contiguously anywhere inside the identifier — it may be
preceded and followed by arbitrary text, with no implicit full-string
anchoring; in particular the pattern "view" matches "view_identifier_12"
and "my_view_x" and does not match "other". -/
theorem pattern_constraint_spec :
    (∀ p i : String, constraintTest (.pattern p) i = true ↔
      ∃ pre post : String, i = pre ++ p ++ post) ∧
    constraintTest (.pattern "view") "view_identifier_12" = true ∧
    constraintTest (.pattern "view") "my_view_x" = true ∧
    constraintTest (.pattern "view") "other" = false := by
  refine ⟨fun p i => ?_, by decide, by decide, by decide⟩
  simp only [constraintTest, occursIn_iff]
  constructor
  · rintro ⟨t, u, h⟩
    refine ⟨⟨t⟩, ⟨u⟩, String.ext ?_⟩
    simpa [String.data_append] using h
  · rintro ⟨pre, post, rfl⟩
    exact ⟨pre.data, post.data, by simp [String.data_append]⟩

/-- C5 witness: from the pattern characterization, "my_view_x" decomposes
around the matched pattern "view" with nonempty surrounding text. -/
theorem pattern_constraint_spec_witness :
    ∃ pre post : String, "my_view_x" = pre ++ "view" ++ post :=
  (pattern_constraint_spec.1 "view" "my_view_x").mp (by decide)

/-- C6: each registration operation appends exactly one new Registration
at the end of its category's ordered list, leaves the other category's
list unchanged, and yields the updated router, so chained registrations
preserve their textual order as match priority. -/
theorem register_appends_spec {ε ρ : Type} (router : ViewsRouter ε ρ)
    (c : Constraint) (h : HandlerContext → Except ε ρ) :
    (router.addSubmissionHandler c h).submissionHandlers
        = router.submissionHandlers ++ [⟨c, h⟩] ∧
    (router.addSubmissionHandler c h).closedHandlers = router.closedHandlers ∧
    (router.addClosedHandler c h).closedHandlers
        = router.closedHandlers ++ [⟨c, h⟩] ∧
    (router.addClosedHandler c h).submissionHandlers = router.submissionHandlers ∧
    (∀ cat : Category, (router.register cat c h).regsFor cat
        = router.regsFor cat ++ [⟨c, h⟩]) ∧
    (∀ (c2 : Constraint) (h2 : HandlerContext → Except ε ρ),
      ((router.addSubmissionHandler c h).addSubmissionHandler c2 h2).submissionHandlers
        = router.submissionHandlers ++ [⟨c, h⟩, ⟨c2, h2⟩]) ∧
    (∀ (c2 : Constraint) (h2 : HandlerContext → Except ε ρ),
      ((router.addClosedHandler c h).addClosedHandler c2 h2).closedHandlers
        = router.closedHandlers ++ [⟨c, h⟩, ⟨c2, h2⟩]) := by
  refine ⟨rfl, rfl, rfl, rfl, ?_, ?_, ?_⟩
  · intro cat
    cases cat <;> rfl
  · intro c2 h2
    simp [ViewsRouter.addSubmissionHandler]
  · intro c2 h2
    simp [ViewsRouter.addClosedHandler]

/-- C6 witness: registering a concrete constraint and handler on a
concrete router appends exactly one Registration to the submission list
and chained registration preserves order. -/
theorem register_appends_spec_witness :
    (sampleRouter.addSubmissionHandler (.exact "a") sampleHandler).submissionHandlers
        = sampleRouter.submissionHandlers ++ [⟨.exact "a", sampleHandler⟩] ∧
    (sampleRouter.addSubmissionHandler (.exact "a") sampleHandler).closedHandlers
        = sampleRouter.closedHandlers ∧
    (sampleRouter.addClosedHandler (.exact "a") sampleHandler).closedHandlers
        = sampleRouter.closedHandlers ++ [⟨.exact "a", sampleHandler⟩] ∧
    (sampleRouter.addClosedHandler (.exact "a") sampleHandler).submissionHandlers
        = sampleRouter.submissionHandlers ∧
    (∀ cat : Category, (sampleRouter.register cat (.exact "a") sampleHandler).regsFor cat
        = sampleRouter.regsFor cat ++ [⟨.exact "a", sampleHandler⟩]) ∧
    (∀ (c2 : Constraint) (h2 : HandlerContext → Except String Nat),
      ((sampleRouter.addSubmissionHandler (.exact "a") sampleHandler).addSubmissionHandler c2 h2).submissionHandlers
        = sampleRouter.submissionHandlers ++ [⟨.exact "a", sampleHandler⟩, ⟨c2, h2⟩]) ∧
    (∀ (c2 : Constraint) (h2 : HandlerContext → Except String Nat),
      ((sampleRouter.addClosedHandler (.exact "a") sampleHandler).addClosedHandler c2 h2).closedHandlers
        = sampleRouter.closedHandlers ++ [⟨.exact "a", sampleHandler⟩, ⟨c2, h2⟩]) :=
  register_appends_spec sampleRouter (.exact "a") sampleHandler

/-- C7: when the registration selected by the scan has a handler that
fails, dispatch returns exactly that failure, unchanged — no retry, no
wrapping, no fallback to any later registration within that dispatch —
and the failure outcome is distinct from the no-match and success
outcomes. -/
theorem handler_failure_propagates {ε ρ : Type} (regs : List (Registration ε ρ))
    (ev : Event) (token : String) (r : Registration ε ρ) (e : ε)
    (hfind : findFirst ev.callbackId regs = some r)
    (hfail : r.handler ⟨ev, token⟩ = Except.error e) :
    dispatchList regs ev token = Outcome.failed e ∧
    (∀ v : ρ, (Outcome.failed e : Outcome ε ρ) ≠ Outcome.handled v) ∧
    (Outcome.failed e : Outcome ε ρ) ≠ Outcome.noMatch := by
  refine ⟨?_, ?_, ?_⟩
  · simp [dispatchList, hfind, handlerRun, hfail]
  · intro v hcontra
    cases hcontra
  · intro hcontra
    cases hcontra

/-- C7 witness: in a concrete list whose first matching handler fails
with "boom" while a later matching handler would succeed, dispatch
returns exactly the failure "boom". -/
theorem handler_failure_propagates_witness :
    dispatchList sampleRegsC sampleEvent "tok" = Outcome.failed "boom" ∧
    (∀ v : Nat, (Outcome.failed "boom" : Outcome String Nat) ≠ Outcome.handled v) ∧
    (Outcome.failed "boom" : Outcome String Nat) ≠ Outcome.noMatch :=
  handler_failure_propagates sampleRegsC sampleEvent "tok" sampleFailReg "boom" rfl rfl

/-- C9: dispatch is read-only with respect to the router's state — the
router state after a dispatch equals the state before, in particular both
categories' ordered registration lists are unchanged — and every
registration operation only extends the existing lists: the prior
registrations of every category remain, in place, at the front of the new
lists. -/
theorem dispatch_read_only {ε ρ : Type} (router : ViewsRouter ε ρ) (cat : Category)
    (ev : Event) (token : String) :
    (router.dispatch cat ev token).2 = router ∧
    (router.dispatch cat ev token).2.submissionHandlers = router.submissionHandlers ∧
    (router.dispatch cat ev token).2.closedHandlers = router.closedHandlers ∧
    (∀ (cat2 catQ : Category) (c : Constraint) (h : HandlerContext → Except ε ρ),
      ∃ t, (router.register cat2 c h).regsFor catQ = router.regsFor catQ ++ t) := by
  refine ⟨rfl, rfl, rfl, ?_⟩
  intro cat2 catQ c h
  cases cat2 <;> cases catQ
  · exact ⟨[⟨c, h⟩], rfl⟩
  · exact ⟨[], by simp [ViewsRouter.register, ViewsRouter.addSubmissionHandler, ViewsRouter.regsFor]⟩
  · exact ⟨[], by simp [ViewsRouter.register, ViewsRouter.addClosedHandler, ViewsRouter.regsFor]⟩
  · exact ⟨[⟨c, h⟩], rfl⟩

/-- C9 witness: dispatching a concrete event on a concrete router leaves
the router state and both registration lists unchanged. -/
theorem dispatch_read_only_witness :
    (sampleRouter.dispatch .submission sampleEvent "tok").2 = sampleRouter ∧
    (sampleRouter.dispatch .submission sampleEvent "tok").2.submissionHandlers
        = sampleRouter.submissionHandlers ∧
    (sampleRouter.dispatch .submission sampleEvent "tok").2.closedHandlers
        = sampleRouter.closedHandlers ∧
    (∀ (cat2 catQ : Category) (c : Constraint) (h : HandlerContext → Except String Nat),
      ∃ t, (sampleRouter.register cat2 c h).regsFor catQ = sampleRouter.regsFor catQ ++ t) :=
  dispatch_read_only sampleRouter .submission sampleEvent "tok"

/-- C8: both function declarations in the repository carry a stable
`callback_id`, a human-readable title and description, and input/output
parameter schemas whose declared parameter names map to objects carrying
a nonempty type and a nonempty description; requiredness is expressed per
declaration by each schema's `required` name array. -/
theorem function_declarations_metadata :
    create_usergroup.callback_id = "slack#/functions/create_usergroup" ∧
    create_usergroup.title = "Create a user group" ∧
    create_usergroup.description = "Create a Slack user group" ∧
    declaredNames create_usergroup.input_parameters = ["usergroup_handle", "usergroup_name"] ∧
    declaredNames create_usergroup.output_parameters = ["usergroup_id"] ∧
    create_usergroup.input_parameters.required = ["usergroup_handle", "usergroup_name"] ∧
    create_usergroup.output_parameters.required = ["usergroup_id"] ∧
    create_channel.callback_id = "slack#/functions/create_channel" ∧
    create_channel.title = "Create a channel" ∧
    create_channel.description = "Create a Slack channel" ∧
    declaredNames create_channel.input_parameters = ["channel_name", "is_private"] ∧
    declaredNames create_channel.output_parameters = ["channel_id"] ∧
    create_channel.input_parameters.required = ["channel_name"] ∧
    create_channel.output_parameters.required = ["channel_id"] ∧
    ((create_usergroup.input_parameters.properties ++
      create_usergroup.output_parameters.properties ++
      create_channel.input_parameters.properties ++
      create_channel.output_parameters.properties).all
        (fun entry => !(entry.2.type == "") && !(entry.2.description == ""))) = true := by
  decide

/-- C10: in both declarations, every name in a `required` array also
appears among the corresponding schema's declared parameter names, and
`is_private` is declared in `create_channel`'s input properties while
absent from its `required` array, so `required` is a subset — strict for
that schema — of the declared names. -/
theorem required_subset_of_declared :
    (create_usergroup.input_parameters.required.all
        (fun n => (declaredNames create_usergroup.input_parameters).contains n)) = true ∧
    (create_usergroup.output_parameters.required.all
        (fun n => (declaredNames create_usergroup.output_parameters).contains n)) = true ∧
    (create_channel.input_parameters.required.all
        (fun n => (declaredNames create_channel.input_parameters).contains n)) = true ∧
    (create_channel.output_parameters.required.all
        (fun n => (declaredNames create_channel.output_parameters).contains n)) = true ∧
    ((declaredNames create_channel.input_parameters).contains "is_private") = true ∧
    (create_channel.input_parameters.required.contains "is_private") = false := by
  decide

end DenoSlackSDK
